import Mathlib

set_option maxRecDepth 4000

/-! Shallow embedding of the chatbot backend (src/app.py).

Python strings are modelled as lists of characters (`Str`), timestamps as
abstract `Nat` ticks (a request uses one tick for all of its writes; the
rendering `datetime.isoformat` is external and modelled by decimal
rendering of the tick), and the SQLite store as in-memory lists of rows.
Each Flask view becomes a pure function from the request data and the
database state to a status code, a response body (JSON objects become
association lists) and the new database state.  The external OpenAI call
is an oracle parameter of the `chat` handler: it either returns a reply
or raises, and the two `except` clauses of the source distinguish
`RequestEntityTooLarge` from every other exception. -/

namespace Chatbot

/-- Python strings are modelled as lists of characters. -/
abbrev Str := List Char

/-- Default conversation title ("Nuevo chat" in src/app.py). -/
def nuevoChat : Str := "Nuevo chat".data

/-- Generic fallback title used when a derived title would be empty. -/
def chatFallback : Str := "Chat".data

/-- The single-character ellipsis marker appended to truncated titles. -/
def ellipsis : Str := "…".data

def roleSystem : Str := "system".data

def roleUser : Str := "user".data

def roleAssistant : Str := "assistant".data

/-- The fixed system instruction (SYSTEM_PROMPT in src/app.py). -/
def SYSTEM_PROMPT : Str :=
  ("Eres un asistente carismático. Das respuestas útiles. " ++
    "Cuando el usuario escriba matemáticas, responde en Markdown usando LaTeX: " ++
    "inline \\( … \\) y en bloque $$ … $$." ++
    "Si usas emojies, vas variandolos con cada respuesta si te parece adecuado. ").data

def MAX_MSG_LEN : Nat := 4000

def keyId : Str := "id".data

def keyTitle : Str := "title".data

def keyCreatedAt : Str := "created_at".data

def keyUpdatedAt : Str := "updated_at".data

def keyRole : Str := "role".data

def keyContent : Str := "content".data

def keyError : Str := "error".data

def keyReply : Str := "reply".data

def keyConversationId : Str := "conversation_id".data

def errEmpty : Str := "Mensaje vacío".data

def errTooLarge : Str := "Mensaje demasiado grande.".data

def errUnavailable : Str := "La IA no está disponible por el momento.".data

/-- Python `str.strip()`: drop whitespace from both ends. -/
def strip (s : Str) : Str :=
  ((s.dropWhile Char.isWhitespace).reverse.dropWhile Char.isWhitespace).reverse

/-- `clamp_text` from src/app.py:
`s = s or ""; s = s.strip(); return s[:n] if len(s) > n else s`.
The Python argument can be `None` (`data.get("message")`), modelled by
`Option`; `s or ""` maps both `None` and `""` to `""`. -/
def clamp_text (s : Option Str) (n : Nat) : Str :=
  let t := strip (s.getD [])
  if t.length > n then t.take n else t

/-- Row of the `user` table. -/
structure User where
  id : Str
  created_at : Nat
deriving DecidableEq

/-- Row of the `conversation` table. -/
structure Conversation where
  id : Str
  user_id : Str
  title : Str
  created_at : Nat
  updated_at : Nat
deriving DecidableEq

/-- Row of the `message` table; `id` is the autoincrement key. -/
structure Message where
  id : Nat
  conversation_id : Str
  role : Str
  content : Str
  created_at : Nat
deriving DecidableEq

/-- The SQLite store: three tables plus the message autoincrement counter.
Rows are kept in insertion order. -/
structure DB where
  users : List User
  convs : List Conversation
  msgs : List Message
  nextMsgId : Nat
deriving DecidableEq

/-- Rendering of a timestamp tick (stands in for `datetime.isoformat`,
which is external to the modelled code). -/
def isoformat (t : Nat) : Str := (toString t).data

/-- Comparison used by `ORDER BY created_at ASC` on messages. -/
def msgLe (a b : Message) : Prop := a.created_at ≤ b.created_at

instance : DecidableRel msgLe := fun _ _ => Nat.decLe _ _

instance : IsTotal Message msgLe := ⟨fun _ _ => Nat.le_total _ _⟩

instance : IsTrans Message msgLe := ⟨fun _ _ _ => Nat.le_trans⟩

/-- `ORDER BY created_at ASC` (stable: ties keep insertion/id order). -/
def sortByCreatedAsc (l : List Message) : List Message :=
  List.insertionSort msgLe l

/-- Comparison used by `ORDER BY updated_at DESC` on conversations. -/
def convGe (a b : Conversation) : Prop := b.updated_at ≤ a.updated_at

instance : DecidableRel convGe := fun _ _ => Nat.decLe _ _

instance : IsTotal Conversation convGe := ⟨fun _ _ => Nat.le_total _ _⟩

instance : IsTrans Conversation convGe := ⟨fun _ _ _ h h2 => Nat.le_trans h2 h⟩

/-- `ORDER BY updated_at DESC` (stable). -/
def sortByUpdatedDesc (l : List Conversation) : List Conversation :=
  List.insertionSort convGe l

/-- Python `l[-n:]`. -/
def takeLast (n : Nat) (l : List α) : List α := l.drop (l.length - n)

/-- A `Set-Cookie` produced by `resp.set_cookie` in src/app.py. -/
structure SetCookie where
  name : Str
  value : Str
  max_age : Nat
  httponly : Bool
  samesite : Str
  secure : Bool
deriving DecidableEq

def cookieName : Str := "user_id".data

def laxStr : Str := "Lax".data

/-- `get_or_set_user` from src/app.py.  `cookie` is
`request.cookies.get("user_id")`; `freshId` stands for `str(uuid4())`;
`cookieSecure` is the `COOKIE_SECURE` environment flag.  Returns the
resolved user id, the cookie attached to the response (if any), and the
new store. -/
def get_or_set_user (db : DB) (cookie : Option Str) (freshId : Str)
    (cookieSecure : Bool) (now : Nat) : Str × Option SetCookie × DB :=
  let user_id := cookie.getD []
  if user_id = [] then
    let user_id := freshId
    let db' := { db with users := db.users ++ [⟨user_id, now⟩] }
    (user_id,
      some ⟨cookieName, user_id, 60 * 60 * 24 * 365 * 2, true, laxStr, cookieSecure⟩,
      db')
  else
    if (db.users.find? (fun u => u.id == user_id)).isSome then
      (user_id, none, db)
    else
      (user_id, none, { db with users := db.users ++ [⟨user_id, now⟩] })

/-- One element of the `GET /conversations` response
(the source serialises `id`, `title` and `created_at`). -/
def conv_entry (c : Conversation) : List (Str × Str) :=
  [(keyId, c.id), (keyTitle, c.title), (keyCreatedAt, isoformat c.created_at)]

/-- `GET /conversations` body for a resolved user (list_conversations). -/
def list_conversations (db : DB) (user_id : Str) : List (List (Str × Str)) :=
  (sortByUpdatedDesc (db.convs.filter (fun c => c.user_id == user_id))).map conv_entry

/-- `POST /conversations` (create_conversation) for a resolved user.
`title?` is `(request.json or \x7b\x7d).get("title")`; `None` or `""` falls
back to the placeholder (`or "Nuevo chat"`), with no trimming. -/
def create_conversation (db : DB) (user_id : Str) (title? : Option Str)
    (freshId : Str) (now : Nat) : List (Str × Str) × DB :=
  let title := if title?.getD [] = [] then nuevoChat else title?.getD []
  let conv : Conversation := ⟨freshId, user_id, title, now, now⟩
  ([(keyId, conv.id), (keyTitle, conv.title)],
    { db with convs := db.convs ++ [conv] })

/-- `PATCH /conversations/(id)` (rename_conversation) for a resolved user.
Returns the status code and the new store. -/
def rename_conversation (db : DB) (user_id conv_id : Str) (title? : Option Str)
    (now : Nat) : Nat × DB :=
  match db.convs.find? (fun c => c.id == conv_id && c.user_id == user_id) with
  | none => (404, db)
  | some conv =>
      let new_title :=
        if strip (title?.getD []) = [] then conv.title else strip (title?.getD [])
      let conv' := { conv with title := new_title, updated_at := now }
      (200, { db with
        convs := db.convs.map (fun c => if c.id == conv.id then conv' else c) })

/-- `DELETE /conversations/(id)` (delete_conversation) for a resolved user:
bulk-deletes the conversation's messages, then the conversation. -/
def delete_conversation (db : DB) (user_id conv_id : Str) : Nat × DB :=
  match db.convs.find? (fun c => c.id == conv_id && c.user_id == user_id) with
  | none => (404, db)
  | some conv =>
      (200, { db with
        msgs := db.msgs.filter (fun m => !(m.conversation_id == conv.id)),
        convs := db.convs.filter (fun c => !(c.id == conv.id)) })

/-- One element of the `GET /history` response. -/
def msg_entry (m : Message) : List (Str × Str) :=
  [(keyRole, m.role), (keyContent, m.content), (keyCreatedAt, isoformat m.created_at)]

/-- `GET /history?conversation_id=` for a resolved user.  Returns the
status code, the body when found, and the (unchanged) store. -/
def history (db : DB) (user_id : Str) (conversation_id : Option Str) :
    Nat × Option (List (List (Str × Str))) × DB :=
  match db.convs.find? (fun c => some c.id == conversation_id && c.user_id == user_id) with
  | none => (404, none, db)
  | some conv =>
      (200,
        some ((sortByCreatedAsc
          (db.msgs.filter (fun m => m.conversation_id == conv.id))).map msg_entry),
        db)

/-- Result of `client.chat.completions.create`: a reply, or an exception.
`tooLarge` is werkzeug's `RequestEntityTooLarge` (caught separately by
the source); `err` is every other exception. -/
inductive LLMOutcome where
  | ok (reply : Str)
  | tooLarge
  | err
deriving DecidableEq

/-- One entry of the context list sent to the LLM. -/
structure ChatMsg where
  role : Str
  content : Str
deriving DecidableEq

def ChatMsg.ofMessage (m : Message) : ChatMsg := ⟨m.role, m.content⟩

/-- Lines 188-195 of src/app.py: create a conversation when no id was
supplied (Python treats an empty string like a missing one), otherwise
look it up under the ownership filter. -/
def resolveConv (db : DB) (user_id : Str) (conversation_id : Option Str)
    (freshConvId : Str) (now : Nat) : Option (Conversation × DB) :=
  if conversation_id.getD [] = [] then
    let conv : Conversation := ⟨freshConvId, user_id, nuevoChat, now, now⟩
    some (conv, { db with convs := db.convs ++ [conv] })
  else
    match db.convs.find? (fun c => some c.id == conversation_id && c.user_id == user_id) with
    | none => none
    | some conv => some (conv, db)

/-- Lines 197-204 of src/app.py: the system prompt, the last 20 stored
messages of the conversation in ascending `created_at` order, then the
new user message. -/
def buildContext (db : DB) (cid : Str) (user_message : Str) : List ChatMsg :=
  ChatMsg.mk roleSystem SYSTEM_PROMPT ::
    ((takeLast 20 (sortByCreatedAsc
        (db.msgs.filter (fun m => m.conversation_id == cid)))).map ChatMsg.ofMessage ++
      [ChatMsg.mk roleUser user_message])

/-- Result of the `POST /chat` handler.  `context` records the argument
passed to the LLM oracle (`none` when the handler returned before the
call). -/
structure ChatResult where
  status : Nat
  body : List (Str × Str)
  context : Option (List ChatMsg)
  db : DB
deriving DecidableEq

/-- `POST /chat` (chat) for a resolved user, src/app.py lines 179-233.
`message` and `conversation_id` are the JSON body fields, `freshConvId`
stands for `str(uuid4())`, `llm` is the external OpenAI call. -/
def chat (db : DB) (user_id : Str) (message : Option Str)
    (conversation_id : Option Str) (freshConvId : Str)
    (llm : List ChatMsg → LLMOutcome) (now : Nat) : ChatResult :=
  let user_message := clamp_text message MAX_MSG_LEN
  if user_message = [] then
    { status := 400, body := [(keyError, errEmpty)], context := none, db := db }
  else
    match resolveConv db user_id conversation_id freshConvId now with
    | none => { status := 404, body := [], context := none, db := db }
    | some (conv, db1) =>
        let context := buildContext db1 conv.id user_message
        let umsg : Message := ⟨db1.nextMsgId, conv.id, roleUser, user_message, now⟩
        let db2 := { db1 with msgs := db1.msgs ++ [umsg], nextMsgId := db1.nextMsgId + 1 }
        match llm context with
        | .tooLarge =>
            { status := 413, body := [(keyError, errTooLarge)],
              context := some context, db := db2 }
        | .err =>
            { status := 503, body := [(keyError, errUnavailable)],
              context := some context, db := db2 }
        | .ok reply =>
            let amsg : Message := ⟨db2.nextMsgId, conv.id, roleAssistant, reply, now⟩
            let db3 := { db2 with msgs := db2.msgs ++ [amsg], nextMsgId := db2.nextMsgId + 1 }
            let preview :=
              if user_message.length > 30 then user_message.take 30 ++ ellipsis
              else user_message
            let title' :=
              if conv.title == nuevoChat then
                (if preview = [] then chatFallback else preview)
              else conv.title
            let conv' := { conv with updated_at := now, title := title' }
            let db4 := { db3 with
              convs := db3.convs.map (fun c => if c.id == conv.id then conv' else c) }
            { status := 200, body := [(keyReply, reply), (keyConversationId, conv.id)],
              context := some context, db := db4 }

/-- `PATCH /conversations/(id)` route: identity resolution then rename. -/
def rename_route (db : DB) (cookie : Option Str) (freshUserId : Str) (sec : Bool)
    (now : Nat) (conv_id : Str) (title? : Option Str) : Nat × DB :=
  let r := get_or_set_user db cookie freshUserId sec now
  rename_conversation r.2.2 r.1 conv_id title? now

/-- `DELETE /conversations/(id)` route: identity resolution then delete. -/
def delete_route (db : DB) (cookie : Option Str) (freshUserId : Str) (sec : Bool)
    (now : Nat) (conv_id : Str) : Nat × DB :=
  let r := get_or_set_user db cookie freshUserId sec now
  delete_conversation r.2.2 r.1 conv_id

/-- `GET /history` route: identity resolution then history. -/
def history_route (db : DB) (cookie : Option Str) (freshUserId : Str) (sec : Bool)
    (now : Nat) (conversation_id : Option Str) :
    Nat × Option (List (List (Str × Str))) × DB :=
  let r := get_or_set_user db cookie freshUserId sec now
  history r.2.2 r.1 conversation_id

/-- `POST /chat` route: identity resolution then chat. -/
def chat_route (db : DB) (cookie : Option Str) (freshUserId : Str) (sec : Bool)
    (now : Nat) (message : Option Str) (conversation_id : Option Str)
    (freshConvId : Str) (llm : List ChatMsg → LLMOutcome) : ChatResult :=
  let r := get_or_set_user db cookie freshUserId sec now
  chat r.2.2 r.1 message conversation_id freshConvId llm now

/-! Concrete sample data used by counterexamples and witnesses. -/

def uAlice : Str := "alice-uuid".data

def uBob : Str := "bob-uuid".data

def cOne : Str := "conv-1".data

def cBob : Str := "conv-bob".data

def tHola : Str := "Hola".data

def fidConv : Str := "fresh-conv".data

def fidUser : Str := "fresh-user".data

def ghostId : Str := "ghost-token".data

def tNew : Str := "Renamed".data

def spaces3 : Str := "   ".data

def holaMsg : Option Str := some ("Hola bot".data)

def dbEmpty : DB := ⟨[], [], [], 0⟩

def dbSample : DB := ⟨[⟨uAlice, 0⟩, ⟨uBob, 0⟩], [⟨cOne, uAlice, tHola, 1, 5⟩], [], 0⟩

/-- A 4001-character input: one letter padded by 4000 trailing spaces. -/
def bigPad : Str := 'a' :: List.replicate 4000 ' '

/-- A 4005-character input with no whitespace. -/
def bigB : Str := List.replicate 4005 'b'

/-- A store holding one conversation with 25 stored messages. -/
def db25 : DB :=
  ⟨[⟨uAlice, 0⟩], [⟨cOne, uAlice, tHola, 0, 0⟩],
    (List.range 25).map (fun i => ⟨i, cOne, roleUser, tHola, i⟩), 25⟩

/-- A store where `cBob` is owned by `uBob` while `uAlice` also exists. -/
def dbTwo : DB := ⟨[⟨uAlice, 0⟩, ⟨uBob, 0⟩], [⟨cBob, uBob, tHola, 1, 5⟩], [], 0⟩

/-- A store holding one conversation whose title is still the placeholder. -/
def dbFresh : DB := ⟨[⟨uAlice, 0⟩], [⟨cOne, uAlice, nuevoChat, 1, 1⟩], [], 0⟩

def replyHi : Str := "¡Hola!".data

/-- A 35-character message (exceeds the 30-character title limit). -/
def msg35 : Str := "12345678901234567890123456789012345".data

theorem dropWhile_ws_replicate_space_append (n : Nat) (l : Str) :
    List.dropWhile Char.isWhitespace (List.replicate n ' ' ++ l) =
      List.dropWhile Char.isWhitespace l := by
  induction n with
  | zero => simp
  | succ k ih => simp [List.replicate_succ, List.dropWhile_cons, ih]

theorem dropWhile_ws_replicate_b (n : Nat) :
    List.dropWhile Char.isWhitespace (List.replicate n 'b') = List.replicate n 'b' := by
  cases n with
  | zero => simp
  | succ k => simp [List.replicate_succ, List.dropWhile_cons]

theorem bigPad_length : bigPad.length = 4001 := by
  unfold bigPad
  rw [List.length_cons, List.length_replicate]

theorem bigB_length : bigB.length = 4005 := by
  unfold bigB
  exact List.length_replicate 4005 'b'

theorem strip_bigPad : strip bigPad = ['a'] := by
  have h1 : List.dropWhile Char.isWhitespace bigPad = bigPad := by
    unfold bigPad
    rw [List.dropWhile_cons, if_neg (show ¬ Char.isWhitespace 'a' = true by decide)]
  have h2 : bigPad.reverse = List.replicate 4000 ' ' ++ ['a'] := by
    unfold bigPad
    rw [List.reverse_cons, List.reverse_replicate]
  unfold strip
  rw [h1, h2, dropWhile_ws_replicate_space_append]
  decide

theorem strip_bigB : strip bigB = bigB := by
  unfold strip bigB
  rw [dropWhile_ws_replicate_b, List.reverse_replicate, dropWhile_ws_replicate_b,
    List.reverse_replicate]

theorem clamp_text_bigPad : clamp_text (some bigPad) MAX_MSG_LEN = ['a'] := by
  unfold clamp_text
  simp only [Option.getD_some, strip_bigPad, MAX_MSG_LEN]
  decide

theorem clamp_text_bigB :
    clamp_text (some bigB) MAX_MSG_LEN = List.replicate 4000 'b' := by
  unfold clamp_text
  simp only [Option.getD_some, strip_bigB, bigB_length, MAX_MSG_LEN]
  rw [if_pos (by norm_num)]
  unfold bigB
  rw [List.take_replicate]
  norm_num [Nat.min_def]

/-- The `chat` handler reads the raw message only through `clamp_text`. -/
theorem chat_clamp_congr (db : DB) (u : Str) (m1 m2 : Option Str)
    (conversation_id : Option Str) (f : Str) (llm : List ChatMsg → LLMOutcome)
    (now : Nat) (h : clamp_text m1 MAX_MSG_LEN = clamp_text m2 MAX_MSG_LEN) :
    chat db u m1 conversation_id f llm now = chat db u m2 conversation_id f llm now := by
  unfold chat
  rw [h]

/-- C5 counterexample: an input of 4001 characters (a letter plus 4000
trailing spaces) is stored as the single trimmed character, not as
exactly 4000 characters — trimming happens before clamping, so "for
every input longer than 4000 characters the stored content is exactly
4000 characters" fails. -/
theorem chat_overlong_padded_stored_short :
    bigPad.length = 4001 ∧
    (chat dbSample uAlice (some bigPad) (some cOne) fidConv
      (fun _ => LLMOutcome.err) 9).db.msgs.map Message.content = [['a']] ∧
    ¬ (['a'] : Str).length = 4000 := by
  have h := chat_clamp_congr dbSample uAlice (some bigPad) (some ['a']) (some cOne)
    fidConv (fun _ => LLMOutcome.err) 9 (by rw [clamp_text_bigPad]; decide)
  refine ⟨bigPad_length, ?_, by decide⟩
  rw [h]
  decide

/-- C1 counterexample: when the LLM call raises `RequestEntityTooLarge`
after the user's message was persisted (one stored message), the handler
answers 413 with its own message, not 503 — so "any failure … returns
503" fails on this exception class. -/
theorem chat_llm_tooLarge_is_413 :
    (chat dbSample uAlice holaMsg (some cOne) fidConv
      (fun _ => LLMOutcome.tooLarge) 9).db.msgs.length = 1 ∧
    (chat dbSample uAlice holaMsg (some cOne) fidConv
      (fun _ => LLMOutcome.tooLarge) 9).status = 413 ∧
    ¬ (chat dbSample uAlice holaMsg (some cOne) fidConv
      (fun _ => LLMOutcome.tooLarge) 9).status = 503 ∧
    (chat dbSample uAlice holaMsg (some cOne) fidConv
      (fun _ => LLMOutcome.tooLarge) 9).body = [(keyError, errTooLarge)] := by
  decide

/-- C3 counterexample: a present token that references no existing User is
kept as-is — a User row with the token's own value is inserted, no fresh
identifier is minted and no cookie is attached to the response,
contradicting "mints a new unique identifier … and attaches the token to
the response as a cookie". -/
theorem get_or_set_user_ghost_token :
    (get_or_set_user dbEmpty (some ghostId) fidUser false 7).2.1 = none ∧
    (get_or_set_user dbEmpty (some ghostId) fidUser false 7).2.2.users = [⟨ghostId, 7⟩] ∧
    (get_or_set_user dbEmpty (some ghostId) fidUser false 7).1 = ghostId ∧
    ¬ ghostId = fidUser := by
  decide

/-- C4 counterexample: renaming an owned conversation rewrites its
`updated_at` (5 becomes 9 here), contradicting "rename does not touch
updated_at". -/
theorem rename_changes_updated_at :
    dbSample.convs.map Conversation.updated_at = [5] ∧
    (rename_conversation dbSample uAlice cOne (some tNew) 9).1 = 200 ∧
    (rename_conversation dbSample uAlice cOne (some tNew) 9).2.convs.map
      Conversation.updated_at = [9] := by
  decide

/-- C8 counterexample: the `GET /conversations` body serialises only
`id`, `title` and `created_at`; the claimed `updated_at` field is absent
from the (non-empty) listing. -/
theorem list_conversations_no_updated_at :
    (list_conversations dbSample uAlice).length = 1 ∧
    ¬ (∀ e ∈ list_conversations dbSample uAlice, keyUpdatedAt ∈ e.map Prod.fst) := by
  decide

/-- C9 counterexample: a whitespace-only supplied title is empty after
trimming, yet the created conversation stores it verbatim instead of the
placeholder — the source never trims the supplied title. -/
theorem create_conversation_whitespace_title :
    strip spaces3 = [] ∧ ¬ spaces3 = [] ∧
    (create_conversation dbEmpty uAlice (some spaces3) fidConv 9).2.convs.map
      Conversation.title = [spaces3] ∧
    ¬ spaces3 = nuevoChat := by
  decide

/-- C3 amended: an absent (or empty) token leads to a freshly minted id,
a new User row and a user_id cookie with a two-year expiry, HttpOnly,
SameSite=Lax and Secure per configuration; a present non-empty token
referencing no existing User is reused verbatim — a User row with that
same token value is created and no cookie is attached; a present token
referencing an existing User is reused with no row created. -/
theorem get_or_set_user_amended (db : DB) (cookie : Option Str) (freshId : Str)
    (sec : Bool) (now : Nat) :
    (cookie.getD [] = [] →
      get_or_set_user db cookie freshId sec now =
        (freshId,
          some ⟨cookieName, freshId, 60 * 60 * 24 * 365 * 2, true, laxStr, sec⟩,
          { db with users := db.users ++ [⟨freshId, now⟩] })) ∧
    (∀ a, cookie = some a → a ≠ [] → (∃ u ∈ db.users, u.id = a) →
      get_or_set_user db cookie freshId sec now = (a, none, db)) ∧
    (∀ a, cookie = some a → a ≠ [] → (∀ u ∈ db.users, u.id ≠ a) →
      get_or_set_user db cookie freshId sec now =
        (a, none, { db with users := db.users ++ [⟨a, now⟩] })) := by
  refine ⟨fun h => ?_, fun a ha hne hex => ?_, fun a ha hne hnone => ?_⟩
  · simp [get_or_set_user, h]
  · subst ha
    obtain ⟨u, hu, hid⟩ := hex
    have hsome : (db.users.find? (fun c => c.id == a)).isSome = true :=
      List.find?_isSome.mpr ⟨u, hu, by simp [hid]⟩
    simp [get_or_set_user, hne, hsome]
  · subst ha
    have hnone' : db.users.find? (fun c => c.id == a) = none :=
      List.find?_eq_none.mpr (fun u hu => by simp [hnone u hu])
    simp [get_or_set_user, hne, hnone']

/-- C3 witness: the three branches at concrete stores. -/
theorem get_or_set_user_amended_witness :
    get_or_set_user dbEmpty none fidUser false 7 =
      (fidUser, some ⟨cookieName, fidUser, 60 * 60 * 24 * 365 * 2, true, laxStr, false⟩,
        { dbEmpty with users := [⟨fidUser, 7⟩] }) ∧
    get_or_set_user dbSample (some uAlice) fidUser false 7 = (uAlice, none, dbSample) ∧
    get_or_set_user dbEmpty (some ghostId) fidUser false 7 =
      (ghostId, none, { dbEmpty with users := [⟨ghostId, 7⟩] }) :=
  ⟨(get_or_set_user_amended dbEmpty none fidUser false 7).1 (by decide),
    (get_or_set_user_amended dbSample (some uAlice) fidUser false 7).2.1 uAlice rfl
      (by decide) ⟨⟨uAlice, 0⟩, by decide, rfl⟩,
    (get_or_set_user_amended dbEmpty (some ghostId) fidUser false 7).2.2 ghostId rfl
      (by decide) (by decide)⟩

/-- C4 amended: a successful rename of an owned conversation changes its
title (to the trimmed new title, keeping the old one when the trim is
empty) and refreshes `updated_at`; `id`, `user_id`, `created_at`, every
other conversation and all messages are unchanged. -/
theorem rename_amended (db : DB) (u cid : Str) (title? : Option Str) (now : Nat)
    (conv : Conversation)
    (hfind : db.convs.find? (fun c => c.id == cid && c.user_id == u) = some conv) :
    (rename_conversation db u cid title? now).1 = 200 ∧
    (rename_conversation db u cid title? now).2.users = db.users ∧
    (rename_conversation db u cid title? now).2.msgs = db.msgs ∧
    (rename_conversation db u cid title? now).2.nextMsgId = db.nextMsgId ∧
    (rename_conversation db u cid title? now).2.convs.length = db.convs.length ∧
    (∀ c ∈ (rename_conversation db u cid title? now).2.convs,
      c.id ≠ conv.id → c ∈ db.convs) ∧
    (∀ c ∈ db.convs, c.id ≠ conv.id →
      c ∈ (rename_conversation db u cid title? now).2.convs) ∧
    (∀ c ∈ (rename_conversation db u cid title? now).2.convs, c.id = conv.id →
      c.user_id = conv.user_id ∧ c.created_at = conv.created_at ∧
      c.updated_at = now ∧
      c.title = (if strip (title?.getD []) = [] then conv.title
                 else strip (title?.getD []))) := by
  simp only [rename_conversation, hfind]
  refine ⟨by trivial, by trivial, by trivial, by trivial, by simp,
    fun c hc hne => ?_, fun c hc hne => ?_, fun c hc hid => ?_⟩
  · obtain ⟨a, ha, hfa⟩ := List.mem_map.mp hc
    by_cases h : a.id = conv.id
    · exfalso
      apply hne
      rw [← hfa]
      simp [h]
    · rwa [← hfa, if_neg (by simpa using h)]
  · refine List.mem_map.mpr ⟨c, hc, ?_⟩
    rw [if_neg (by simpa using hne)]
  · obtain ⟨a, ha, hfa⟩ := List.mem_map.mp hc
    by_cases h : a.id = conv.id
    · rw [← hfa, if_pos (by simpa using h)]
      exact ⟨rfl, rfl, rfl, rfl⟩
    · exfalso
      apply h
      have : a = c := by rw [← hfa, if_neg (by simpa using h)]
      rw [this, hid]

/-- C4 witness: renaming the sample conversation. -/
theorem rename_amended_witness :
    (rename_conversation dbSample uAlice cOne (some tNew) 9).1 = 200 ∧
    (rename_conversation dbSample uAlice cOne (some tNew) 9).2.msgs = dbSample.msgs ∧
    (∀ c ∈ (rename_conversation dbSample uAlice cOne (some tNew) 9).2.convs,
      c.id = cOne →
      c.user_id = uAlice ∧ c.created_at = 1 ∧ c.updated_at = 9 ∧
      c.title = (if strip ((some tNew).getD []) = [] then tHola
                 else strip ((some tNew).getD []))) :=
  ⟨(rename_amended dbSample uAlice cOne (some tNew) 9 ⟨cOne, uAlice, tHola, 1, 5⟩
      (by decide)).1,
    (rename_amended dbSample uAlice cOne (some tNew) 9 ⟨cOne, uAlice, tHola, 1, 5⟩
      (by decide)).2.2.1,
    (rename_amended dbSample uAlice cOne (some tNew) 9 ⟨cOne, uAlice, tHola, 1, 5⟩
      (by decide)).2.2.2.2.2.2.2⟩

/-- C9 amended: creating a conversation records a row with the supplied
fresh id, owned by the caller; the title is the placeholder exactly when
the supplied title is absent or the empty string — a non-empty title
(whitespace-only included) is stored verbatim, with no trimming. -/
theorem create_conversation_amended (db : DB) (u : Str) (title? : Option Str)
    (fid : Str) (now : Nat) :
    (create_conversation db u title? fid now).2.users = db.users ∧
    (create_conversation db u title? fid now).2.msgs = db.msgs ∧
    ∃ t : Str,
      (create_conversation db u title? fid now).2.convs =
        db.convs ++ [⟨fid, u, t, now, now⟩] ∧
      (create_conversation db u title? fid now).1 = [(keyId, fid), (keyTitle, t)] ∧
      (title?.getD [] = [] → t = nuevoChat) ∧
      (title?.getD [] ≠ [] → t = title?.getD []) := by
  refine ⟨rfl, rfl, if title?.getD [] = [] then nuevoChat else title?.getD [],
    rfl, rfl, fun h => if_pos h, fun h => if_neg h⟩

/-- C9 witness: creation with no supplied title at a concrete store. -/
theorem create_conversation_amended_witness :
    (create_conversation dbEmpty uAlice none fidConv 3).2.users = dbEmpty.users ∧
    (create_conversation dbEmpty uAlice none fidConv 3).2.msgs = dbEmpty.msgs ∧
    ∃ t : Str,
      (create_conversation dbEmpty uAlice none fidConv 3).2.convs =
        dbEmpty.convs ++ [⟨fidConv, uAlice, t, 3, 3⟩] ∧
      (create_conversation dbEmpty uAlice none fidConv 3).1 =
        [(keyId, fidConv), (keyTitle, t)] ∧
      ((none : Option Str).getD [] = [] → t = nuevoChat) ∧
      ((none : Option Str).getD [] ≠ [] → t = (none : Option Str).getD []) :=
  create_conversation_amended dbEmpty uAlice none fidConv 3

/-- Evaluation of `chat` when the conversation resolves and the LLM call
raises a generic exception. -/
theorem chat_err_eq (db : DB) (u : Str) (message conversation_id : Option Str)
    (f : Str) (llm : List ChatMsg → LLMOutcome) (now : Nat)
    (conv : Conversation) (db1 : DB)
    (hm : ¬ clamp_text message MAX_MSG_LEN = [])
    (hres : resolveConv db u conversation_id f now = some (conv, db1))
    (hllm : llm (buildContext db1 conv.id (clamp_text message MAX_MSG_LEN)) =
      LLMOutcome.err) :
    chat db u message conversation_id f llm now =
      { status := 503, body := [(keyError, errUnavailable)],
        context := some (buildContext db1 conv.id (clamp_text message MAX_MSG_LEN)),
        db := { db1 with
          msgs := db1.msgs ++
            [⟨db1.nextMsgId, conv.id, roleUser, clamp_text message MAX_MSG_LEN, now⟩],
          nextMsgId := db1.nextMsgId + 1 } } := by
  simp only [chat, hres, hllm, if_neg hm]

/-- Evaluation of `chat` when the conversation resolves and the LLM call
raises `RequestEntityTooLarge`. -/
theorem chat_tooLarge_eq (db : DB) (u : Str) (message conversation_id : Option Str)
    (f : Str) (llm : List ChatMsg → LLMOutcome) (now : Nat)
    (conv : Conversation) (db1 : DB)
    (hm : ¬ clamp_text message MAX_MSG_LEN = [])
    (hres : resolveConv db u conversation_id f now = some (conv, db1))
    (hllm : llm (buildContext db1 conv.id (clamp_text message MAX_MSG_LEN)) =
      LLMOutcome.tooLarge) :
    chat db u message conversation_id f llm now =
      { status := 413, body := [(keyError, errTooLarge)],
        context := some (buildContext db1 conv.id (clamp_text message MAX_MSG_LEN)),
        db := { db1 with
          msgs := db1.msgs ++
            [⟨db1.nextMsgId, conv.id, roleUser, clamp_text message MAX_MSG_LEN, now⟩],
          nextMsgId := db1.nextMsgId + 1 } } := by
  simp only [chat, hres, hllm, if_neg hm]

/-- Evaluation of `chat` when the conversation resolves and the LLM call
returns a reply. -/
theorem chat_ok_eq (db : DB) (u : Str) (message conversation_id : Option Str)
    (f : Str) (llm : List ChatMsg → LLMOutcome) (now : Nat)
    (conv : Conversation) (db1 : DB) (reply : Str)
    (hm : ¬ clamp_text message MAX_MSG_LEN = [])
    (hres : resolveConv db u conversation_id f now = some (conv, db1))
    (hllm : llm (buildContext db1 conv.id (clamp_text message MAX_MSG_LEN)) =
      LLMOutcome.ok reply) :
    chat db u message conversation_id f llm now =
      { status := 200, body := [(keyReply, reply), (keyConversationId, conv.id)],
        context := some (buildContext db1 conv.id (clamp_text message MAX_MSG_LEN)),
        db := { db1 with
          msgs := (db1.msgs ++
            [⟨db1.nextMsgId, conv.id, roleUser, clamp_text message MAX_MSG_LEN, now⟩]) ++
            [⟨db1.nextMsgId + 1, conv.id, roleAssistant, reply, now⟩],
          nextMsgId := db1.nextMsgId + 1 + 1,
          convs := db1.convs.map (fun c =>
            if c.id == conv.id then
              { conv with
                  updated_at := now,
                  title :=
                    if conv.title == nuevoChat then
                      (if (if (clamp_text message MAX_MSG_LEN).length > 30 then
                            (clamp_text message MAX_MSG_LEN).take 30 ++ ellipsis
                          else clamp_text message MAX_MSG_LEN) = [] then chatFallback
                       else (if (clamp_text message MAX_MSG_LEN).length > 30 then
                            (clamp_text message MAX_MSG_LEN).take 30 ++ ellipsis
                          else clamp_text message MAX_MSG_LEN))
                    else conv.title }
            else c) } } := by
  simp only [chat, hres, hllm, if_neg hm]

/-- C8 amended: the listing is exactly the caller's conversations in
`updated_at`-descending order, but each entry carries only the fields
`id`, `title` and `created_at` (no `updated_at`). -/
theorem list_conversations_amended (db : DB) (u : Str) :
    (∀ e ∈ list_conversations db u,
      e.map Prod.fst = [keyId, keyTitle, keyCreatedAt]) ∧
    ∃ l : List Conversation,
      l.Perm (db.convs.filter (fun c => c.user_id == u)) ∧
      List.Pairwise (fun a b => b.updated_at ≤ a.updated_at) l ∧
      list_conversations db u = l.map conv_entry := by
  constructor
  · intro e he
    obtain ⟨c, _, hce⟩ := List.mem_map.mp he
    rw [← hce]
    rfl
  · refine ⟨sortByUpdatedDesc (db.convs.filter (fun c => c.user_id == u)),
      List.perm_insertionSort _ _, ?_, rfl⟩
    exact List.sorted_insertionSort convGe _

/-- C8 witness: the amended statement at the sample store. -/
theorem list_conversations_amended_witness :
    (∀ e ∈ list_conversations dbSample uAlice,
      e.map Prod.fst = [keyId, keyTitle, keyCreatedAt]) ∧
    ∃ l : List Conversation,
      l.Perm (dbSample.convs.filter (fun c => c.user_id == uAlice)) ∧
      List.Pairwise (fun a b => b.updated_at ≤ a.updated_at) l ∧
      list_conversations dbSample uAlice = l.map conv_entry :=
  list_conversations_amended dbSample uAlice

/-- C2: whatever the LLM outcome, the context passed to the LLM is the
fixed system instruction, then the most recent `min N 20` stored messages
of the conversation (a suffix of the ascending transcript, so oldest of
that window first), then the new user message last; its total length is
`1 + min N 20 + 1`, where `N` is the number of stored messages. -/
theorem chat_context_window (db : DB) (u : Str) (message conversation_id : Option Str)
    (f : Str) (llm : List ChatMsg → LLMOutcome) (now : Nat)
    (conv : Conversation) (db1 : DB)
    (hm : ¬ clamp_text message MAX_MSG_LEN = [])
    (hres : resolveConv db u conversation_id f now = some (conv, db1)) :
    ∃ pre window,
      sortByCreatedAsc (db1.msgs.filter (fun m => m.conversation_id == conv.id)) =
        pre ++ window ∧
      window.length =
        min (db1.msgs.filter (fun m => m.conversation_id == conv.id)).length 20 ∧
      (chat db u message conversation_id f llm now).context =
        some (ChatMsg.mk roleSystem SYSTEM_PROMPT ::
          (window.map ChatMsg.ofMessage ++
            [ChatMsg.mk roleUser (clamp_text message MAX_MSG_LEN)])) ∧
      ((chat db u message conversation_id f llm now).context.getD []).length =
        1 + min (db1.msgs.filter (fun m => m.conversation_id == conv.id)).length 20 + 1 := by
  have hH : (sortByCreatedAsc
      (db1.msgs.filter (fun m => m.conversation_id == conv.id))).length =
      (db1.msgs.filter (fun m => m.conversation_id == conv.id)).length :=
    (List.perm_insertionSort msgLe _).length_eq
  have hctx : (chat db u message conversation_id f llm now).context =
      some (buildContext db1 conv.id (clamp_text message MAX_MSG_LEN)) := by
    cases hl : llm (buildContext db1 conv.id (clamp_text message MAX_MSG_LEN)) with
    | ok reply =>
        rw [chat_ok_eq db u message conversation_id f llm now conv db1 reply hm hres hl]
    | tooLarge =>
        rw [chat_tooLarge_eq db u message conversation_id f llm now conv db1 hm hres hl]
    | err =>
        rw [chat_err_eq db u message conversation_id f llm now conv db1 hm hres hl]
  set H := sortByCreatedAsc (db1.msgs.filter (fun m => m.conversation_id == conv.id))
    with hHdef
  have hwin : (takeLast 20 H).length =
      min (db1.msgs.filter (fun m => m.conversation_id == conv.id)).length 20 := by
    unfold takeLast
    rw [List.length_drop]
    omega
  refine ⟨H.take (H.length - 20), takeLast 20 H,
    (List.take_append_drop _ _).symm, hwin, ?_, ?_⟩
  · rw [hctx]
    rfl
  · rw [hctx, Option.getD_some, buildContext]
    simp only [List.length_cons, List.length_append, List.length_map,
      List.length_nil]
    rw [← hHdef]
    omega

/-- C2 witness: with 25 prior stored messages the context has 22 entries —
the system instruction, stored messages 5..24 (oldest of the window
first), then the new user message. -/
theorem chat_context_window_witness :
    (∃ pre window,
      sortByCreatedAsc (db25.msgs.filter (fun m => m.conversation_id ==
        (⟨cOne, uAlice, tHola, 0, 0⟩ : Conversation).id)) = pre ++ window ∧
      window.length =
        min (db25.msgs.filter (fun m => m.conversation_id ==
          (⟨cOne, uAlice, tHola, 0, 0⟩ : Conversation).id)).length 20 ∧
      (chat db25 uAlice holaMsg (some cOne) fidConv
        (fun _ => LLMOutcome.err) 30).context =
        some (ChatMsg.mk roleSystem SYSTEM_PROMPT ::
          (window.map ChatMsg.ofMessage ++
            [ChatMsg.mk roleUser (clamp_text holaMsg MAX_MSG_LEN)])) ∧
      ((chat db25 uAlice holaMsg (some cOne) fidConv
        (fun _ => LLMOutcome.err) 30).context.getD []).length =
        1 + min (db25.msgs.filter (fun m => m.conversation_id ==
          (⟨cOne, uAlice, tHola, 0, 0⟩ : Conversation).id)).length 20 + 1) ∧
    ((chat db25 uAlice holaMsg (some cOne) fidConv
      (fun _ => LLMOutcome.err) 30).context.getD []).length = 22 ∧
    (chat db25 uAlice holaMsg (some cOne) fidConv
      (fun _ => LLMOutcome.err) 30).context =
      some (ChatMsg.mk roleSystem SYSTEM_PROMPT ::
        (((List.range 25).drop 5).map (fun _ => ChatMsg.mk roleUser tHola) ++
          [ChatMsg.mk roleUser ("Hola bot".data)])) := by
  refine ⟨chat_context_window db25 uAlice holaMsg (some cOne) fidConv
    (fun _ => LLMOutcome.err) 30 ⟨cOne, uAlice, tHola, 0, 0⟩ db25
    (by decide) (by decide), by decide, by decide⟩

/-- A resolved conversation is stored in the post-resolution store, is
owned by the caller, and resolution touches no other table. -/
theorem resolveConv_some (db : DB) (u : Str) (conversation_id : Option Str)
    (f : Str) (now : Nat) (conv : Conversation) (db1 : DB)
    (hres : resolveConv db u conversation_id f now = some (conv, db1)) :
    conv ∈ db1.convs ∧ conv.user_id = u ∧ db1.msgs = db.msgs ∧
    db1.users = db.users ∧ db1.nextMsgId = db.nextMsgId := by
  unfold resolveConv at hres
  split at hres
  · obtain ⟨h1, h2⟩ := Prod.mk.injEq .. ▸ Option.some.injEq .. ▸ hres
    subst h2
    refine ⟨?_, ?_, rfl, rfl, rfl⟩
    · exact List.mem_append_right _ (h1 ▸ List.mem_singleton_self _)
    · rw [← h1]
  · revert hres
    split
    · intro h
      exact absurd h (by simp)
    next c hfind =>
      intro h
      obtain ⟨h1, h2⟩ := Prod.mk.injEq .. ▸ Option.some.injEq .. ▸ h
      subst h1 h2
      have hmem := List.mem_of_find?_eq_some hfind
      have hpred := List.find?_some hfind
      simp only [Bool.and_eq_true, beq_iff_eq] at hpred
      exact ⟨hmem, hpred.2, rfl, rfl, rfl⟩

/-- Evaluation of `chat` when the message is empty after trimming. -/
theorem chat_400_eq (db : DB) (u : Str) (message conversation_id : Option Str)
    (f : Str) (llm : List ChatMsg → LLMOutcome) (now : Nat)
    (hcl : clamp_text message MAX_MSG_LEN = []) :
    chat db u message conversation_id f llm now =
      { status := 400, body := [(keyError, errEmpty)], context := none, db := db } := by
  simp [chat, hcl]

/-- Evaluation of `chat` when the conversation does not resolve. -/
theorem chat_404_eq (db : DB) (u : Str) (message conversation_id : Option Str)
    (f : Str) (llm : List ChatMsg → LLMOutcome) (now : Nat)
    (hm : ¬ clamp_text message MAX_MSG_LEN = [])
    (hres : resolveConv db u conversation_id f now = none) :
    chat db u message conversation_id f llm now =
      { status := 404, body := [], context := none, db := db } := by
  simp only [chat, hres, if_neg hm]

/-- The clamp result is empty exactly when the trimmed input is empty. -/
theorem clamp_text_eq_nil_iff (m : Option Str) :
    clamp_text m MAX_MSG_LEN = [] ↔ strip (m.getD []) = [] := by
  simp only [clamp_text]
  split
  next h =>
    constructor
    · intro hnil
      have h1 : ((strip (m.getD [])).take MAX_MSG_LEN).length = MAX_MSG_LEN := by
        rw [List.length_take]
        omega
      rw [hnil] at h1
      simp [MAX_MSG_LEN] at h1
    · intro hnil
      rw [hnil] at h
      simp at h
  next h =>
    exact Iff.rfl

/-- The clamp result never exceeds the limit. -/
theorem clamp_text_length_le (m : Option Str) :
    (clamp_text m MAX_MSG_LEN).length ≤ MAX_MSG_LEN := by
  simp only [clamp_text]
  split
  next h =>
    rw [List.length_take]
    omega
  next h =>
    omega

/-- When the trimmed input exceeds the limit, the clamp is its prefix of
exactly the limit's length. -/
theorem clamp_text_of_long (m : Option Str)
    (h : (strip (m.getD [])).length > MAX_MSG_LEN) :
    clamp_text m MAX_MSG_LEN = (strip (m.getD [])).take MAX_MSG_LEN ∧
    (clamp_text m MAX_MSG_LEN).length = MAX_MSG_LEN := by
  simp only [clamp_text]
  rw [if_pos h]
  refine ⟨rfl, ?_⟩
  rw [List.length_take]
  omega

/-- C6: on a successful turn, the conversation's title becomes the first
30 characters of the user's message with a single ellipsis character
appended exactly when the message exceeds 30 characters (a message of at
most 30 characters becomes the title unchanged) — but only when the title
was still the placeholder; any other title is left untouched. -/
theorem chat_title_derivation (db : DB) (u : Str)
    (message conversation_id : Option Str) (f : Str)
    (llm : List ChatMsg → LLMOutcome) (now : Nat)
    (conv : Conversation) (db1 : DB) (reply : Str)
    (hm : ¬ clamp_text message MAX_MSG_LEN = [])
    (hres : resolveConv db u conversation_id f now = some (conv, db1))
    (hllm : llm (buildContext db1 conv.id (clamp_text message MAX_MSG_LEN)) =
      LLMOutcome.ok reply) :
    (chat db u message conversation_id f llm now).status = 200 ∧
    ellipsis.length = 1 ∧
    ∀ c ∈ (chat db u message conversation_id f llm now).db.convs, c.id = conv.id →
      (conv.title = nuevoChat →
        ((clamp_text message MAX_MSG_LEN).length > 30 →
          c.title = (clamp_text message MAX_MSG_LEN).take 30 ++ ellipsis ∧
          c.title.length = 31) ∧
        ((clamp_text message MAX_MSG_LEN).length ≤ 30 →
          c.title = clamp_text message MAX_MSG_LEN)) ∧
      (conv.title ≠ nuevoChat → c.title = conv.title) := by
  rw [chat_ok_eq db u message conversation_id f llm now conv db1 reply hm hres hllm]
  refine ⟨rfl, by decide, fun c hc hcid => ?_⟩
  obtain ⟨a, ha, hfa⟩ := List.mem_map.mp hc
  by_cases hid : a.id = conv.id
  · rw [← hfa, if_pos (by simpa using hid)]
    constructor
    · intro htitle
      rw [if_pos (by simpa using htitle)]
      constructor
      · intro hlen
        rw [if_pos hlen, if_neg (fun hEmpty =>
          absurd (List.append_eq_nil.mp hEmpty).2 (by decide))]
        refine ⟨rfl, ?_⟩
        rw [List.length_append, List.length_take]
        have he : ellipsis.length = 1 := by decide
        omega
      · intro hlen
        by_cases hgt : (clamp_text message MAX_MSG_LEN).length > 30
        · omega
        · rw [if_neg hgt, if_neg hm]
    · intro htitle
      rw [if_neg (by simpa using htitle)]
  · exfalso
    apply hid
    have hac : a = c := by
      rw [← hfa, if_neg (by simpa using hid)]
    rw [hac, hcid]

/-- C6 witness: an 8-character message on a placeholder-titled
conversation becomes the title verbatim; a 35-character message yields
the first 30 characters plus one ellipsis character. -/
theorem chat_title_derivation_witness :
    (chat dbFresh uAlice holaMsg (some cOne) fidConv
      (fun _ => LLMOutcome.ok replyHi) 9).status = 200 ∧
    (∀ c ∈ (chat dbFresh uAlice holaMsg (some cOne) fidConv
      (fun _ => LLMOutcome.ok replyHi) 9).db.convs, c.id = cOne →
      (nuevoChat = nuevoChat →
        ((clamp_text holaMsg MAX_MSG_LEN).length > 30 →
          c.title = (clamp_text holaMsg MAX_MSG_LEN).take 30 ++ ellipsis ∧
          c.title.length = 31) ∧
        ((clamp_text holaMsg MAX_MSG_LEN).length ≤ 30 →
          c.title = clamp_text holaMsg MAX_MSG_LEN)) ∧
      (nuevoChat ≠ nuevoChat → c.title = nuevoChat)) ∧
    (chat dbFresh uAlice holaMsg (some cOne) fidConv
      (fun _ => LLMOutcome.ok replyHi) 9).db.convs.map Conversation.title =
      ["Hola bot".data] ∧
    (chat dbFresh uAlice (some msg35) (some cOne) fidConv
      (fun _ => LLMOutcome.ok replyHi) 9).db.convs.map Conversation.title =
      [("123456789012345678901234567890".data ++ ellipsis)] := by
  have h := chat_title_derivation dbFresh uAlice holaMsg (some cOne) fidConv
    (fun _ => LLMOutcome.ok replyHi) 9 ⟨cOne, uAlice, nuevoChat, 1, 1⟩ dbFresh replyHi
    (by decide) (by decide) rfl
  exact ⟨h.1, h.2.2, by decide, by decide⟩

/-- C1 amended: when the LLM call raises any failure other than
`RequestEntityTooLarge` after the user's message has been persisted, the
handler answers 503 with the generic unavailability message, persists no
assistant message, leaves every conversation row (hence `updated_at` and
title) unchanged, and the already-persisted user message remains stored
and visible via `/history`. -/
theorem chat_llm_failure_amended (db : DB) (u : Str)
    (message conversation_id : Option Str) (f : Str)
    (llm : List ChatMsg → LLMOutcome) (now : Nat)
    (conv : Conversation) (db1 : DB)
    (hm : ¬ clamp_text message MAX_MSG_LEN = [])
    (hres : resolveConv db u conversation_id f now = some (conv, db1))
    (hllm : llm (buildContext db1 conv.id (clamp_text message MAX_MSG_LEN)) =
      LLMOutcome.err) :
    (chat db u message conversation_id f llm now).status = 503 ∧
    (chat db u message conversation_id f llm now).body =
      [(keyError, errUnavailable)] ∧
    (chat db u message conversation_id f llm now).db.convs = db1.convs ∧
    (chat db u message conversation_id f llm now).db.msgs =
      db1.msgs ++
        [⟨db1.nextMsgId, conv.id, roleUser, clamp_text message MAX_MSG_LEN, now⟩] ∧
    (∀ m ∈ (chat db u message conversation_id f llm now).db.msgs,
      m.role = roleAssistant → m ∈ db1.msgs) ∧
    ∃ entries,
      history (chat db u message conversation_id f llm now).db u (some conv.id) =
        (200, some entries, (chat db u message conversation_id f llm now).db) ∧
      msg_entry ⟨db1.nextMsgId, conv.id, roleUser,
        clamp_text message MAX_MSG_LEN, now⟩ ∈ entries := by
  obtain ⟨hmem, huid, hmsgs1, husers1, hnext1⟩ :=
    resolveConv_some db u conversation_id f now conv db1 hres
  rw [chat_err_eq db u message conversation_id f llm now conv db1 hm hres hllm]
  refine ⟨rfl, rfl, rfl, rfl, ?_, ?_⟩
  · intro m hmm hrole
    rcases List.mem_append.mp hmm with h | h
    · exact h
    · exfalso
      rw [List.mem_singleton] at h
      rw [h] at hrole
      have hru : roleUser = roleAssistant := hrole
      exact absurd hru (by decide)
  · have hsome : ((db1.convs).find?
        (fun c => some c.id == some conv.id && c.user_id == u)).isSome = true := by
      refine List.find?_isSome.mpr ⟨conv, hmem, ?_⟩
      simp [huid]
    obtain ⟨cf, hcf⟩ := Option.isSome_iff_exists.mp hsome
    have hcfpred := List.find?_some hcf
    simp only [Bool.and_eq_true, beq_iff_eq, Option.some.injEq] at hcfpred
    refine ⟨(sortByCreatedAsc ((db1.msgs ++
        [(⟨db1.nextMsgId, conv.id, roleUser,
          clamp_text message MAX_MSG_LEN, now⟩ : Message)]).filter
        (fun m => m.conversation_id == cf.id))).map msg_entry, ?_, ?_⟩
    · simp only [history, hcf]
    · refine List.mem_map.mpr ⟨(⟨db1.nextMsgId, conv.id, roleUser,
        clamp_text message MAX_MSG_LEN, now⟩ : Message), ?_, rfl⟩
      unfold sortByCreatedAsc
      rw [(List.perm_insertionSort msgLe _).mem_iff]
      refine List.mem_filter.mpr ⟨List.mem_append_right _ (List.mem_singleton_self _), ?_⟩
      simp [hcfpred.1]

/-- C1 witness: a generic LLM failure on the sample store. -/
theorem chat_llm_failure_amended_witness :
    (chat dbSample uAlice holaMsg (some cOne) fidConv
      (fun _ => LLMOutcome.err) 9).status = 503 ∧
    (chat dbSample uAlice holaMsg (some cOne) fidConv
      (fun _ => LLMOutcome.err) 9).db.convs = dbSample.convs ∧
    ∃ entries,
      history (chat dbSample uAlice holaMsg (some cOne) fidConv
        (fun _ => LLMOutcome.err) 9).db uAlice (some cOne) =
        (200, some entries, (chat dbSample uAlice holaMsg (some cOne) fidConv
          (fun _ => LLMOutcome.err) 9).db) ∧
      msg_entry ⟨0, cOne, roleUser, clamp_text holaMsg MAX_MSG_LEN, 9⟩ ∈ entries := by
  have h := chat_llm_failure_amended dbSample uAlice holaMsg (some cOne) fidConv
    (fun _ => LLMOutcome.err) 9 ⟨cOne, uAlice, tHola, 1, 5⟩ dbSample
    (by decide) (by decide) rfl
  exact ⟨h.1, h.2.2.1, h.2.2.2.2.2⟩

/-- C5 amended: the incoming message is first trimmed, then silently
clamped to at most 4000 characters; the request is rejected with 400 if
and only if the message is empty after trimming; and for every input
whose trimmed form exceeds 4000 characters the stored user message
content is exactly the first 4000 characters of the trimmed input. -/
theorem chat_clamp_amended (db : DB) (u : Str) (message conversation_id : Option Str)
    (f : Str) (llm : List ChatMsg → LLMOutcome) (now : Nat) :
    ((chat db u message conversation_id f llm now).status = 400 ↔
      strip (message.getD []) = []) ∧
    (clamp_text message MAX_MSG_LEN).length ≤ MAX_MSG_LEN ∧
    ((strip (message.getD [])).length > MAX_MSG_LEN →
      clamp_text message MAX_MSG_LEN = (strip (message.getD [])).take MAX_MSG_LEN ∧
      (clamp_text message MAX_MSG_LEN).length = MAX_MSG_LEN) ∧
    (∀ conv db1, resolveConv db u conversation_id f now = some (conv, db1) →
      ¬ strip (message.getD []) = [] →
      (⟨db1.nextMsgId, conv.id, roleUser,
        clamp_text message MAX_MSG_LEN, now⟩ : Message) ∈
        (chat db u message conversation_id f llm now).db.msgs) := by
  refine ⟨?_, clamp_text_length_le message, clamp_text_of_long message,
    fun conv db1 hres hne => ?_⟩
  · by_cases hcl : clamp_text message MAX_MSG_LEN = []
    · rw [chat_400_eq db u message conversation_id f llm now hcl]
      simpa using (clamp_text_eq_nil_iff message).mp hcl
    · have hrhs : ¬ strip (message.getD []) = [] :=
        fun hs => hcl ((clamp_text_eq_nil_iff message).mpr hs)
      simp only [iff_false_intro hrhs, iff_false]
      cases hres : resolveConv db u conversation_id f now with
      | none =>
          rw [chat_404_eq db u message conversation_id f llm now hcl hres]
          simp
      | some p =>
          obtain ⟨conv, db1⟩ := p
          cases hl : llm (buildContext db1 conv.id (clamp_text message MAX_MSG_LEN)) with
          | ok reply =>
              rw [chat_ok_eq db u message conversation_id f llm now conv db1 reply
                hcl hres hl]
              simp
          | tooLarge =>
              rw [chat_tooLarge_eq db u message conversation_id f llm now conv db1
                hcl hres hl]
              simp
          | err =>
              rw [chat_err_eq db u message conversation_id f llm now conv db1
                hcl hres hl]
              simp
  · have hcl : ¬ clamp_text message MAX_MSG_LEN = [] :=
      fun hs => hne ((clamp_text_eq_nil_iff message).mp hs)
    cases hl : llm (buildContext db1 conv.id (clamp_text message MAX_MSG_LEN)) with
    | ok reply =>
        rw [chat_ok_eq db u message conversation_id f llm now conv db1 reply
          hcl hres hl]
        exact List.mem_append_left _
          (List.mem_append_right _ (List.mem_singleton_self _))
    | tooLarge =>
        rw [chat_tooLarge_eq db u message conversation_id f llm now conv db1
          hcl hres hl]
        exact List.mem_append_right _ (List.mem_singleton_self _)
    | err =>
        rw [chat_err_eq db u message conversation_id f llm now conv db1
          hcl hres hl]
        exact List.mem_append_right _ (List.mem_singleton_self _)

/-- C5 witness: a 4005-character whitespace-free input is stored clamped
to exactly 4000 characters; its request is not rejected. -/
theorem chat_clamp_amended_witness :
    ((chat dbSample uAlice (some bigB) none fidConv
      (fun _ => LLMOutcome.err) 9).status = 400 ↔
      strip ((some bigB).getD []) = []) ∧
    (clamp_text (some bigB) MAX_MSG_LEN).length ≤ MAX_MSG_LEN ∧
    (clamp_text (some bigB) MAX_MSG_LEN).length = MAX_MSG_LEN ∧
    (⟨dbSample.nextMsgId, fidConv, roleUser,
      clamp_text (some bigB) MAX_MSG_LEN, 9⟩ : Message) ∈
      (chat dbSample uAlice (some bigB) none fidConv
        (fun _ => LLMOutcome.err) 9).db.msgs := by
  have hne : ¬ strip ((some bigB).getD []) = [] := by
    rw [Option.getD_some, strip_bigB]
    intro hh
    have hlen := congrArg List.length hh
    rw [bigB_length] at hlen
    simp at hlen
  have hlong : (strip ((some bigB).getD [])).length > MAX_MSG_LEN := by
    rw [Option.getD_some, strip_bigB, bigB_length]
    norm_num [MAX_MSG_LEN]
  have h := chat_clamp_amended dbSample uAlice (some bigB) none fidConv
    (fun _ => LLMOutcome.err) 9
  exact ⟨h.1, h.2.1, (h.2.2.1 hlong).2,
    h.2.2.2 ⟨fidConv, uAlice, nuevoChat, 9, 9⟩
      { dbSample with convs := dbSample.convs ++ [⟨fidConv, uAlice, nuevoChat, 9, 9⟩] }
      (by decide) hne⟩

/-- C7: a request carrying the identity of an existing User `a` against a
conversation id that belongs to a different User `b` gets 404 from
DELETE, PATCH (rename), GET /history and POST /chat alike, and the store
is completely unchanged. -/
theorem ownership_404_no_change (db : DB) (a b cid : Str) (fU fC : Str)
    (sec : Bool) (now : Nat) (title? message : Option Str)
    (llm : List ChatMsg → LLMOutcome)
    (ha : a ≠ []) (hauser : ∃ u ∈ db.users, u.id = a)
    (hab : a ≠ b) (hcid : ¬ cid = [])
    (hown : ∀ c ∈ db.convs, c.id = cid → c.user_id = b)
    (hm : ¬ clamp_text message MAX_MSG_LEN = []) :
    delete_route db (some a) fU sec now cid = (404, db) ∧
    rename_route db (some a) fU sec now cid title? = (404, db) ∧
    history_route db (some a) fU sec now (some cid) = (404, none, db) ∧
    chat_route db (some a) fU sec now message (some cid) fC llm =
      { status := 404, body := [], context := none, db := db } := by
  have hresolve : get_or_set_user db (some a) fU sec now = (a, none, db) :=
    (get_or_set_user_amended db (some a) fU sec now).2.1 a rfl ha hauser
  have hfind : db.convs.find? (fun c => c.id == cid && c.user_id == a) = none := by
    rw [List.find?_eq_none]
    intro c hc hp
    simp only [Bool.and_eq_true, beq_iff_eq] at hp
    have hcb := hown c hc hp.1
    rw [hp.2] at hcb
    exact hab hcb
  have hfind2 : db.convs.find?
      (fun c => some c.id == some cid && c.user_id == a) = none := by
    rw [List.find?_eq_none]
    intro c hc hp
    simp only [Bool.and_eq_true, beq_iff_eq, Option.some.injEq] at hp
    have hcb := hown c hc hp.1
    rw [hp.2] at hcb
    exact hab hcb
  have hresNone : resolveConv db a (some cid) fC now = none := by
    simp only [resolveConv, Option.getD_some, if_neg hcid, hfind2]
  refine ⟨?_, ?_, ?_, ?_⟩
  · simp only [delete_route, hresolve, delete_conversation, hfind]
  · simp only [rename_route, hresolve, rename_conversation, hfind]
  · simp only [history_route, hresolve, history, hfind2]
  · simp only [chat_route, hresolve]
    exact chat_404_eq db a message (some cid) fC llm now hm hresNone

/-- C7 witness: Alice attacking Bob's conversation on a two-user store. -/
theorem ownership_404_no_change_witness :
    delete_route dbTwo (some uAlice) fidUser false 9 cBob = (404, dbTwo) ∧
    rename_route dbTwo (some uAlice) fidUser false 9 cBob (some tNew) = (404, dbTwo) ∧
    history_route dbTwo (some uAlice) fidUser false 9 (some cBob) = (404, none, dbTwo) ∧
    chat_route dbTwo (some uAlice) fidUser false 9 holaMsg (some cBob) fidConv
      (fun _ => LLMOutcome.err) =
      { status := 404, body := [], context := none, db := dbTwo } :=
  ownership_404_no_change dbTwo uAlice uBob cBob fidUser fidConv false 9
    (some tNew) holaMsg (fun _ => LLMOutcome.err) (by decide)
    ⟨⟨uAlice, 0⟩, by decide, rfl⟩ (by decide) (by decide) (by decide) (by decide)

/-- C10: a chat turn with no conversation id whose LLM call fails still
leaves the freshly created conversation durably stored with the
placeholder title, owned by the caller and holding exactly the one user
message, while the 503 body is only the generic error and carries no
conversation id. -/
theorem chat_create_failure_persists (db : DB) (u : Str) (message : Option Str)
    (fC : Str) (llm : List ChatMsg → LLMOutcome) (now : Nat)
    (hm : ¬ clamp_text message MAX_MSG_LEN = [])
    (hfresh : ∀ m ∈ db.msgs, m.conversation_id ≠ fC)
    (hllm : llm (buildContext
      { db with convs := db.convs ++ [⟨fC, u, nuevoChat, now, now⟩] } fC
      (clamp_text message MAX_MSG_LEN)) = LLMOutcome.err) :
    (chat db u message none fC llm now).status = 503 ∧
    (chat db u message none fC llm now).body = [(keyError, errUnavailable)] ∧
    keyConversationId ∉ (chat db u message none fC llm now).body.map Prod.fst ∧
    (chat db u message none fC llm now).db.convs =
      db.convs ++ [⟨fC, u, nuevoChat, now, now⟩] ∧
    (chat db u message none fC llm now).db.msgs.filter
      (fun m => m.conversation_id == fC) =
      [⟨db.nextMsgId, fC, roleUser, clamp_text message MAX_MSG_LEN, now⟩] := by
  have hres : resolveConv db u none fC now =
      some (⟨fC, u, nuevoChat, now, now⟩,
        { db with convs := db.convs ++ [⟨fC, u, nuevoChat, now, now⟩] }) := rfl
  rw [chat_err_eq db u message none fC llm now ⟨fC, u, nuevoChat, now, now⟩
    { db with convs := db.convs ++ [⟨fC, u, nuevoChat, now, now⟩] } hm hres hllm]
  refine ⟨rfl, rfl, ?_, rfl, ?_⟩
  · show keyConversationId ∉ List.map Prod.fst [(keyError, errUnavailable)]
    decide
  rw [List.filter_append]
  have h1 : db.msgs.filter (fun m => m.conversation_id == fC) = [] := by
    rw [List.filter_eq_nil_iff]
    intro m hmm
    simpa using hfresh m hmm
  rw [h1]
  simp

/-- C10 witness: the failing first turn on the sample store. -/
theorem chat_create_failure_persists_witness :
    (chat dbSample uAlice holaMsg none fidConv
      (fun _ => LLMOutcome.err) 9).status = 503 ∧
    (chat dbSample uAlice holaMsg none fidConv
      (fun _ => LLMOutcome.err) 9).body = [(keyError, errUnavailable)] ∧
    keyConversationId ∉ (chat dbSample uAlice holaMsg none fidConv
      (fun _ => LLMOutcome.err) 9).body.map Prod.fst ∧
    (chat dbSample uAlice holaMsg none fidConv
      (fun _ => LLMOutcome.err) 9).db.convs =
      dbSample.convs ++ [⟨fidConv, uAlice, nuevoChat, 9, 9⟩] ∧
    (chat dbSample uAlice holaMsg none fidConv
      (fun _ => LLMOutcome.err) 9).db.msgs.filter
      (fun m => m.conversation_id == fidConv) =
      [⟨dbSample.nextMsgId, fidConv, roleUser, clamp_text holaMsg MAX_MSG_LEN, 9⟩] :=
  chat_create_failure_persists dbSample uAlice holaMsg fidConv
    (fun _ => LLMOutcome.err) 9 (by decide) (by decide) rfl

end Chatbot
